import Mathlib

/-!
Verification development for the fuzzy-matching tagging tool
(src/tagging.py and src/app.py).

The Python code is shallowly embedded: pure string construction becomes
Lean string functions, the single network call is modelled as an oracle
argument carrying the model's textual response, and Python exceptions are
modelled with `Except`.  Behaviour of the Python standard library used by
the code (`json.loads`, `str.strip`, `str.splitlines`, `repr`, list
formatting, `dict.get`) is modelled faithfully for the ASCII fragment the
application manipulates.
-/

namespace FuzzyMatching

/-- Python exceptions that the embedded code can raise or catch.
`valueError` stands for `json.JSONDecodeError` (a `ValueError`) from
`json.loads`, `attributeError` for calling `.get` on a non-dict,
`indexError` for `mapping_labels[0]` on an empty list, and
`runtimeError` for the `RuntimeError` raised by `_get_client`. -/
inductive PyExc where
  | valueError
  | attributeError
  | indexError
  | runtimeError
deriving DecidableEq

/-- Python values produced by `json.loads`.  `vnull` stands for Python
`None`, which is both the decoding of JSON `null` and the default that
`dict.get` returns for a missing key.  Numbers keep their raw source text
(`vnum`): the code only ever compares the decoded value against label
strings, and a Python number never equals a string, so the numeric value
itself is irrelevant. -/
inductive PyVal where
  | vnull
  | vbool (b : Bool)
  | vnum (raw : String)
  | vstr (s : String)
  | varr (elems : List PyVal)
  | vobj (members : List (String × PyVal))

/-- JSON whitespace skipping, as in Python's `json` module: space, tab,
newline and carriage return. -/
def jskipWs : List Char → List Char
  | [] => []
  | c :: cs =>
    if c = ' ' ∨ c = '\t' ∨ c = '\n' ∨ c = '\r' then jskipWs cs else c :: cs

/-- Value of a hexadecimal digit, if any. -/
def jhexVal (c : Char) : Option Nat :=
  if '0' ≤ c ∧ c ≤ '9' then some (c.toNat - 48)
  else if 'a' ≤ c ∧ c ≤ 'f' then some (c.toNat - 87)
  else if 'A' ≤ c ∧ c ≤ 'F' then some (c.toNat - 55)
  else none

/-- Body of a JSON string literal (the opening quote already consumed),
with the escape sequences of RFC 8259 as implemented by Python's `json`
module; unescaped control characters are rejected.  Surrogate-pair
recombination is not modelled (no claim involves astral characters). -/
def jparseStringLoop : Nat → List Char → List Char → Option (String × List Char)
  | 0, _, _ => none
  | fuel + 1, acc, cs =>
    match cs with
    | [] => none
    | '"' :: rest => some (String.mk acc.reverse, rest)
    | '\\' :: esc =>
      match esc with
      | '"' :: r => jparseStringLoop fuel ('"' :: acc) r
      | '\\' :: r => jparseStringLoop fuel ('\\' :: acc) r
      | '/' :: r => jparseStringLoop fuel ('/' :: acc) r
      | 'b' :: r => jparseStringLoop fuel ('\x08' :: acc) r
      | 'f' :: r => jparseStringLoop fuel ('\x0c' :: acc) r
      | 'n' :: r => jparseStringLoop fuel ('\n' :: acc) r
      | 'r' :: r => jparseStringLoop fuel ('\r' :: acc) r
      | 't' :: r => jparseStringLoop fuel ('\t' :: acc) r
      | 'u' :: h1 :: h2 :: h3 :: h4 :: r =>
        match jhexVal h1, jhexVal h2, jhexVal h3, jhexVal h4 with
        | some a, some b, some c, some d =>
          jparseStringLoop fuel (Char.ofNat (a * 4096 + b * 256 + c * 16 + d) :: acc) r
        | _, _, _, _ => none
      | _ => none
    | c :: rest =>
      if c.toNat < 32 then none else jparseStringLoop fuel (c :: acc) rest

/-- Integer part of a JSON number: `0`, or a nonzero digit followed by
digits. -/
def jparseIntPart : List Char → Option (List Char × List Char)
  | [] => none
  | c :: rest =>
    if c = '0' then some ([c], rest)
    else if c.isDigit then
      some (c :: rest.takeWhile Char.isDigit, rest.dropWhile Char.isDigit)
    else none

/-- Fractional part of a JSON number; consumed only when a full `.digits`
form is present, otherwise nothing is consumed (the unconsumed dot then
makes the surrounding parse fail, as in Python's strict decoder). -/
def jparseFrac : List Char → List Char × List Char
  | '.' :: rest =>
    match rest.takeWhile Char.isDigit with
    | [] => ([], '.' :: rest)
    | ds => ('.' :: ds, rest.dropWhile Char.isDigit)
  | cs => ([], cs)

/-- Exponent part of a JSON number; consumed only when fully well formed. -/
def jparseExp : List Char → List Char × List Char
  | [] => ([], [])
  | c :: rest =>
    if c = 'e' ∨ c = 'E' then
      match rest with
      | s :: r2 =>
        if s = '+' ∨ s = '-' then
          match r2.takeWhile Char.isDigit with
          | [] => ([], c :: rest)
          | ds => (c :: s :: ds, r2.dropWhile Char.isDigit)
        else
          match rest.takeWhile Char.isDigit with
          | [] => ([], c :: rest)
          | ds => (c :: ds, rest.dropWhile Char.isDigit)
      | [] => ([], [c])
    else ([], c :: rest)

/-- A JSON number token, returned as its raw text. -/
def jparseNumber (cs : List Char) : Option (String × List Char) :=
  match cs with
  | '-' :: cs1 =>
    match jparseIntPart cs1 with
    | none => none
    | some (ip, r1) =>
      match jparseFrac r1 with
      | (fp, r2) =>
        match jparseExp r2 with
        | (ep, r3) => some (String.mk (('-' :: ip) ++ fp ++ ep), r3)
  | _ =>
    match jparseIntPart cs with
    | none => none
    | some (ip, r1) =>
      match jparseFrac r1 with
      | (fp, r2) =>
        match jparseExp r2 with
        | (ep, r3) => some (String.mk (ip ++ fp ++ ep), r3)

mutual

/-- Recursive-descent JSON value parser modelling Python's `json.loads`,
including Python's non-standard acceptance of `NaN`, `Infinity` and
`-Infinity`.  The fuel argument bounds nesting; callers pass more fuel
than the input length, which always suffices because every recursive call
consumes at least one character first. -/
def jparseVal : Nat → List Char → Option (PyVal × List Char)
  | 0, _ => none
  | fuel + 1, cs =>
    match cs with
    | 't' :: 'r' :: 'u' :: 'e' :: rest => some (.vbool true, rest)
    | 'f' :: 'a' :: 'l' :: 's' :: 'e' :: rest => some (.vbool false, rest)
    | 'n' :: 'u' :: 'l' :: 'l' :: rest => some (.vnull, rest)
    | 'N' :: 'a' :: 'N' :: rest => some (.vnum ("NaN"), rest)
    | 'I' :: 'n' :: 'f' :: 'i' :: 'n' :: 'i' :: 't' :: 'y' :: rest =>
      some (.vnum ("Infinity"), rest)
    | '-' :: 'I' :: 'n' :: 'f' :: 'i' :: 'n' :: 'i' :: 't' :: 'y' :: rest =>
      some (.vnum ("-Infinity"), rest)
    | '"' :: rest =>
      match jparseStringLoop (rest.length + 1) [] rest with
      | some (s, r) => some (.vstr s, r)
      | none => none
    | '\x7b' :: rest =>
      match jskipWs rest with
      | '\x7d' :: r2 => some (.vobj [], r2)
      | r1 =>
        match jparseMembers fuel r1 with
        | some (kvs, r2) => some (.vobj kvs, r2)
        | none => none
    | '[' :: rest =>
      match jskipWs rest with
      | ']' :: r2 => some (.varr [], r2)
      | r1 =>
        match jparseElems fuel r1 with
        | some (xs, r2) => some (.varr xs, r2)
        | none => none
    | _ =>
      match jparseNumber cs with
      | some (raw, r) => some (.vnum raw, r)
      | none => none

/-- Members of a JSON object after `\x7b` and leading whitespace. -/
def jparseMembers : Nat → List Char → Option (List (String × PyVal) × List Char)
  | 0, _ => none
  | fuel + 1, cs =>
    match cs with
    | '"' :: rest =>
      match jparseStringLoop (rest.length + 1) [] rest with
      | none => none
      | some (k, r1) =>
        match jskipWs r1 with
        | ':' :: r2 =>
          match jparseVal fuel (jskipWs r2) with
          | none => none
          | some (v, r3) =>
            match jskipWs r3 with
            | ',' :: r4 =>
              match jparseMembers fuel (jskipWs r4) with
              | some (kvs, r5) => some ((k, v) :: kvs, r5)
              | none => none
            | '\x7d' :: r4 => some ([(k, v)], r4)
            | _ => none
        | _ => none
    | _ => none

/-- Elements of a JSON array after `[` and leading whitespace. -/
def jparseElems : Nat → List Char → Option (List PyVal × List Char)
  | 0, _ => none
  | fuel + 1, cs =>
    match jparseVal fuel cs with
    | none => none
    | some (v, r1) =>
      match jskipWs r1 with
      | ',' :: r2 =>
        match jparseElems fuel (jskipWs r2) with
        | some (xs, r3) => some (v :: xs, r3)
        | none => none
      | ']' :: r2 => some ([v], r2)
      | _ => none

end

/-- Model of Python `json.loads`: parse one JSON value and require that
only whitespace follows it. -/
def json_loads (s : String) : Option PyVal :=
  match jparseVal (s.length + 1) (jskipWs s.data) with
  | some (v, rest) => if jskipWs rest = [] then some v else none
  | none => none

/-- Model of `dict(...).get(k)` on the dict that Python's JSON decoder
builds from an object's members: with duplicate keys the last occurrence
wins, and a missing key yields Python `None` (`vnull`), exactly like a
JSON `null` value. -/
def dictGet (kvs : List (String × PyVal)) (k : String) : PyVal :=
  match kvs.reverse.lookup k with
  | some v => v
  | none => .vnull

/-- Characters stripped by Python `str.strip()` (ASCII whitespace;
Unicode whitespace beyond ASCII is not modelled). -/
def isPyWs (c : Char) : Bool :=
  c == ' ' || c == '\t' || c == '\n' || c == '\r' || c == '\x0b' || c == '\x0c'

/-- Model of Python `str.strip()`: drop leading and trailing whitespace. -/
def py_strip (s : String) : String :=
  String.mk (((s.data.dropWhile isPyWs).reverse.dropWhile isPyWs).reverse)

/-- Worker for `splitlinesPy`: accumulates the current line (reversed) and
splits at a line boundary, producing no trailing empty line for a
terminal newline, as Python does.  Structurally recursive on a fuel
bound so that it evaluates by kernel reduction; fuel equal to the input
length never runs out, since each step consumes at least one character.
-/
def splitlines_go : Nat → List Char → List Char → List (List Char)
  | 0, acc, _ => [acc.reverse]
  | _ + 1, acc, [] => [acc.reverse]
  | n + 1, acc, '\r' :: '\n' :: rest =>
    if rest = [] then [acc.reverse] else acc.reverse :: splitlines_go n [] rest
  | n + 1, acc, '\n' :: rest =>
    if rest = [] then [acc.reverse] else acc.reverse :: splitlines_go n [] rest
  | n + 1, acc, '\r' :: rest =>
    if rest = [] then [acc.reverse] else acc.reverse :: splitlines_go n [] rest
  | n + 1, acc, c :: rest => splitlines_go n (c :: acc) rest

/-- Model of Python `str.splitlines()` for the line boundaries `\n`,
`\r\n` and `\r` (the exotic Unicode boundaries Python also recognises are
not modelled). -/
def splitlinesPy (s : String) : List String :=
  if s.data = [] then []
  else (splitlines_go s.data.length [] s.data).map String.mk

/-- Lowercase hexadecimal digit. -/
def hexDigitChar (n : Nat) : Char :=
  if n < 10 then Char.ofNat (48 + n) else Char.ofNat (87 + n)

/-- Quote character chosen by Python `repr` for a string: a single quote
unless the string contains one and no double quote. -/
def pyReprQuote (s : String) : Char :=
  if s.data.contains '\x27' && !(s.data.contains '"') then '"' else '\x27'

/-- Escape of one character inside Python `repr` of a string with chosen
quote `q`: backslash and the quote are backslash-escaped, newline,
carriage return and tab use their mnemonic escapes, other control
characters use `\xNN`.  Non-ASCII printability is not modelled (the
characters the application manipulates are ASCII). -/
def pyReprEscape (q c : Char) : List Char :=
  if c = '\\' then ['\\', '\\']
  else if c = q then ['\\', q]
  else if c = '\n' then ['\\', 'n']
  else if c = '\r' then ['\\', 'r']
  else if c = '\t' then ['\\', 't']
  else if c.toNat < 32 ∨ c.toNat = 127 then
    ['\\', 'x', hexDigitChar (c.toNat / 16 % 16), hexDigitChar (c.toNat % 16)]
  else [c]

/-- Model of Python `repr` on a string, as produced by the `!r` format
conversion in an f-string. -/
def pyRepr (s : String) : String :=
  String.mk (pyReprQuote s :: (s.data.map (pyReprEscape (pyReprQuote s))).flatten
    ++ [pyReprQuote s])

/-- Comma-separated reprs of the elements of a list, as in Python
`str(list)`. -/
def pyStrListAux : List String → String
  | [] => ""
  | [x] => pyRepr x
  | x :: y :: xs => pyRepr x ++ ", " ++ pyStrListAux (y :: xs)

/-- Model of Python `str` of a list of strings, as produced by
interpolating `mapping_labels` into an f-string: bracketed,
comma-separated reprs. -/
def pyStrList (labels : List String) : String :=
  "[" ++ pyStrListAux labels ++ "]"

/-- Leading part of the system prompt, up to the interpolated label list
(from `build_system_prompt` in src/tagging.py). -/
def system_prompt_pre : String :=
  "You are a semantic classification engine that performs fuzzy matching. You receive a single text value from a dataset and must assign it to exactly one of the allowed labels using semantic understanding.\n\nRules:\n- Allowed labels: "

/-- The rule line of the system prompt that states the required JSON
response shape. -/
def system_prompt_shape_rule : String :=
  "- Always return a JSON object with the shape: \x7b\"tag\": <one_of_the_labels>\x7d.\n"

/-- Part of the system prompt between the label list and the
allow-other-dependent tail. -/
def system_prompt_mid : String :=
  "\n" ++ system_prompt_shape_rule
    ++ "- Use semantic matching: consider synonyms, related terms, variations, and conceptual relationships.\n- Be generous with matching - prefer mapping to the closest label rather than defaulting to \x27Other\x27.\n"

/-- Tail of the system prompt when allow_other is true. -/
def system_prompt_other_allowed : String :=
  "- Only use \"Other\" as a LAST RESORT when the value has NO semantic relationship to any label.\n- Do NOT use \"Other\" for synonyms, variations, or related concepts - find the best match instead.\n- Do NOT invent new labels.\n"

/-- Tail of the system prompt when allow_other is false. -/
def system_prompt_other_forbidden : String :=
  "- You must choose one of the allowed labels. Pick the closest semantic match even if imperfect. Do NOT use \x27Other\x27 or invent new labels.\n"

/-- Model of `build_system_prompt` from src/tagging.py. -/
def build_system_prompt (mapping_labels : List String) (allow_other : Bool) : String :=
  let base := system_prompt_pre ++ pyStrList mapping_labels ++ system_prompt_mid
  if allow_other then base ++ system_prompt_other_allowed
  else base ++ system_prompt_other_forbidden

/-- Model of the `context_str` conditional expression in
`build_user_prompt`: Python truthiness of an `Optional[str]` makes both
`None` and the empty string yield the empty block. -/
def context_str : Option String → String
  | some s =>
    if s ≠ "" then "Additional context from the user:\n" ++ s ++ "\n\n" else ""
  | none => ""

/-- Model of the `other_str` conditional expression in
`build_user_prompt`. -/
def other_str (allow_other : Bool) : String :=
  if allow_other then
    "\"Other\" is allowed ONLY as a last resort when there is truly no semantic match. Prefer matching to the closest label using synonyms, variations, or related concepts."
  else "\"Other\" is NOT allowed. You must choose one of the allowed labels."

/-- First line of the user prompt, framing the column name. -/
def user_prompt_pre (column_name : String) : String :=
  "You are mapping a value from column \x27" ++ column_name ++ "\x27.\n"

/-- Final instruction sentence of the user prompt.  These trailing
literals of the return expression carry no f prefix in the source, so
the doubled braces written there are NOT collapsed: the prompt really
contains literal doubled braces around the example object. -/
def user_prompt_tail : String :=
  "Use semantic/fuzzy matching to find the best label. Consider synonyms, related terms, and conceptual relationships. Return a JSON object, e.g. \x7b\x7b\"tag\": \"...\"\x7d\x7d with ONLY one of the allowed labels (or \x27Other\x27 only if truly no match exists)."

/-- Part of the user prompt after the optional context block: the
repr-formatted value, the label list, the other-policy sentence and the
final instruction. -/
def user_prompt_post (cell_value : String) (mapping_labels : List String)
    (allow_other : Bool) : String :=
  "Value to classify: " ++ pyRepr cell_value ++ "\n\nAllowed labels: "
    ++ pyStrList mapping_labels ++ "\n" ++ other_str allow_other ++ "\n\n"
    ++ user_prompt_tail

/-- Model of `build_user_prompt` from src/tagging.py: the f-string is the
concatenation of the first line, the optional context block, and the
remainder. -/
def build_user_prompt (cell_value : String) (extra_context : Option String)
    (column_name : String) (mapping_labels : List String)
    (allow_other : Bool) : String :=
  user_prompt_pre column_name ++ context_str extra_context
    ++ user_prompt_post cell_value mapping_labels allow_other

/-- The expression `mapping_labels[0]` used as the in-code fallback,
raising `IndexError` on an empty label list. -/
def fallback_first (mapping_labels : List String) : Except PyExc String :=
  match mapping_labels with
  | [] => .error .indexError
  | l0 :: _ => .ok l0

/-- The validation step on the decoded `tag`: the Python guard
`tag not in mapping_labels and not (allow_other and tag == "Other")`
rendered positively — a tag is returned verbatim exactly when it is a
string that is a member of the labels or a permitted "Other"; any other
decoded value (including the `None` of a missing key or JSON null, which
is never a member and never equals "Other") takes the
`mapping_labels[0]` fallback. -/
def validate_tag (tag : PyVal) (mapping_labels : List String)
    (allow_other : Bool) : Except PyExc String :=
  match tag with
  | .vstr s =>
    if s ∈ mapping_labels ∨ (allow_other = true ∧ s = "Other") then .ok s
    else fallback_first mapping_labels
  | _ => fallback_first mapping_labels

/-- Body of the `try` block in `classify_value` (src/tagging.py lines
100-108): parse the response as JSON (`json.loads` raising on malformed
input), read `data.get("tag")` (an `AttributeError` on a non-dict), and
validate the tag. -/
def try_body (content : String) (mapping_labels : List String)
    (allow_other : Bool) : Except PyExc String :=
  match json_loads content with
  | none => .error .valueError
  | some (.vobj kvs) => validate_tag (dictGet kvs ("tag")) mapping_labels allow_other
  | some _ => .error .attributeError

/-- The `try`/`except` of `classify_value` (src/tagging.py lines
100-111): any exception escaping the `try` body is caught, and the
handler returns "Other" when allow_other is true, else
`mapping_labels[0]` — whose own `IndexError` on an empty label list
propagates out of the handler. -/
def parse_and_validate (content : String) (mapping_labels : List String)
    (allow_other : Bool) : Except PyExc String :=
  match try_body content mapping_labels allow_other with
  | .ok s => .ok s
  | .error _ =>
    if allow_other then .ok ("Other")
    else
      match mapping_labels with
      | [] => .error .indexError
      | l0 :: _ => .ok l0

/-- Model of `classify_value` from src/tagging.py.  The single network
call is modelled by the oracle argument `model_response`, standing for
`response.choices[0].message.content`; the function strips it and runs
the parse-and-validate step.  `_get_client` raises `RuntimeError` first
when the API key is empty (Python falsiness of a string). -/
def classify_value (value : String) (mapping_labels : List String)
    (column_name : String) (allow_other : Bool)
    (extra_context : Option String) (api_key : String)
    (model_response : String) : Except PyExc String :=
  if api_key = "" then .error .runtimeError
  else parse_and_validate (py_strip model_response) mapping_labels allow_other

/-- The successive operations of one `classify_value` call, in source
order. -/
inductive Step where
  | get_client
  | compose_system
  | compose_user
  | invoke
  | parse_step
deriving DecidableEq

/-- Control-flow skeleton of `classify_value`: the client check runs
first, and when the API key is empty the call raises there, before any
prompt is composed or any request issued. -/
def classify_steps (api_key : String) : List Step :=
  if api_key = "" then [.get_client]
  else [.get_client, .compose_system, .compose_user, .invoke, .parse_step]

/-- Worker for `unique_first`, structurally recursive on a fuel bound so
that it evaluates by kernel reduction; the fuel never runs out when it
starts at the list length, since each step removes the head. -/
def unique_first_fuel : Nat → List String → List String
  | 0, _ => []
  | _ + 1, [] => []
  | n + 1, x :: xs => x :: unique_first_fuel n (xs.filter (fun y => y ≠ x))

/-- Model of pandas `Series.unique()` order: keep the first occurrence of
each element, preserving order. -/
def unique_first (l : List String) : List String :=
  unique_first_fuel l.length l

/-- Model of the mapping-file label pipeline in src/app.py lines 73-80:
`mapping_df[col].dropna().astype(str).str.strip().unique().tolist()`.
A cell is `none` for NaN (dropped by `dropna`), otherwise the string the
cell coerces to under `astype(str)`. -/
def mapping_labels_from_file (column : List (Option String)) : List String :=
  unique_first ((column.filterMap id).map py_strip)

/-- Model of the pasted-text label pipeline in src/app.py lines 89-92:
the comprehension `[line.strip() for line in mapping_text.splitlines()
if line.strip()]`, guarded by `if mapping_text.strip():`. -/
def mapping_labels_from_text (mapping_text : String) : List String :=
  if py_strip mapping_text = "" then []
  else ((splitlinesPy mapping_text).map py_strip).filter (fun l => l ≠ "")

/-- Outcome of the tagging loop of src/app.py lines 177-196:
the collected tags, the `had_error` flag, and — as instrumentation for
stating the abort property — the indices of the rows for which
`classify_value` was invoked. -/
structure LoopResult where
  mapped_tags : List String
  had_error : Bool
  submitted : List Nat

/-- The `for i, val in enumerate(values)` loop of src/app.py lines
177-196, parameterised by the per-row outcome of `classify_value`
(`classify i`): on the first raising row the loop records the error and
breaks; otherwise the tag is appended and the loop continues. -/
def run_loop (classify : Nat → Except PyExc String) : Nat → Nat → LoopResult
  | _, 0 => ⟨[], false, []⟩
  | i, n + 1 =>
    match classify i with
    | .error _ => ⟨[], true, [i]⟩
    | .ok tag =>
      let r := run_loop classify (i + 1) n
      ⟨tag :: r.mapped_tags, r.had_error, i :: r.submitted⟩

/-- The whole run over `total` rows, starting at row index 0. -/
def run_tagging (classify : Nat → Except PyExc String) (total : Nat) : LoopResult :=
  run_loop classify 0 total

/-- The output column attached by src/app.py lines 198-202: after the
loop, `st.stop()` on `had_error` means no column is ever attached; only
an error-free run commits `mapped_tags` as the new column. -/
def attached_column (classify : Nat → Except PyExc String) (total : Nat) :
    Option (List String) :=
  if (run_tagging classify total).had_error then none
  else some (run_tagging classify total).mapped_tags

/-- Substring containment: the needle occurs contiguously in the
haystack. -/
def strContains (hay needle : String) : Prop :=
  needle.data <:+: hay.data

instance strContainsDec (hay needle : String) : Decidable (strContains hay needle) :=
  List.decidableInfix needle.data hay.data

theorem strContains_self (s : String) : strContains s s :=
  List.infix_refl s.data

/-- Executable substring scan used to evaluate negative containment
statements on concrete strings without deep instance recursion. -/
def list_contains_sub (hay needle : List Char) : Bool :=
  match hay with
  | [] => needle.isEmpty
  | _ :: t => (needle.isPrefixOf hay) || list_contains_sub t needle

theorem infix_iff_contains_sub (n : List Char) :
    ∀ h, (n <:+: h) ↔ list_contains_sub h n = true := by
  intro h
  induction h with
  | nil =>
    simp only [List.infix_nil, list_contains_sub, List.isEmpty_iff]
  | cons c t ih =>
    simp only [List.infix_cons_iff, list_contains_sub, Bool.or_eq_true,
      List.isPrefixOf_iff_prefix, ih]

theorem strContains_iff_sub (hay needle : String) :
    strContains hay needle ↔ list_contains_sub hay.data needle.data = true :=
  infix_iff_contains_sub needle.data hay.data

theorem strContains_append_left (a b m : String) (h : strContains a m) :
    strContains (a ++ b) m := by
  unfold strContains at h ⊢
  rw [String.data_append]
  obtain ⟨u, v, huv⟩ := h
  exact ⟨u, v ++ b.data, by rw [← huv]; simp⟩

theorem strContains_append_right (a b m : String) (h : strContains b m) :
    strContains (a ++ b) m := by
  unfold strContains at h ⊢
  rw [String.data_append]
  obtain ⟨u, v, huv⟩ := h
  exact ⟨a.data ++ u, v, by rw [← huv]; simp⟩

theorem strContains_trans (hay x m : String) (hx : strContains hay x)
    (hm : strContains x m) : strContains hay m :=
  List.IsInfix.trans hm hx

/-- Membership of the repr of a list element in the rendered list body. -/
theorem pyStrListAux_contains (L : List String) :
    ∀ l ∈ L, strContains (pyStrListAux L) (pyRepr l) := by
  induction L with
  | nil => intro l hl; cases hl
  | cons x xs ih =>
    intro l hl
    cases xs with
    | nil =>
      rcases List.mem_cons.mp hl with h | h
      · subst h; exact strContains_self _
      · cases h
    | cons y ys =>
      rcases List.mem_cons.mp hl with h | h
      · subst h
        exact strContains_append_left _ _ _
          (strContains_append_left _ _ _ (strContains_self _))
      · exact strContains_append_right _ _ _ (ih l h)

theorem pyStrList_contains (L : List String) (l : String) (h : l ∈ L) :
    strContains (pyStrList L) (pyRepr l) :=
  strContains_append_left _ _ _
    (strContains_append_right _ _ _ (pyStrListAux_contains L l h))

/-- A string is repr-safe when it has no character that Python `repr`
escapes: no backslash, no quote of either kind, no mnemonic-escaped or
other control character.  For such strings the repr is just the string
between two single quotes. -/
def reprSafe (s : String) : Prop :=
  ∀ c ∈ s.data, c ≠ '\\' ∧ c ≠ '\x27' ∧ c ≠ '"' ∧ c ≠ '\n' ∧ c ≠ '\r' ∧
    c ≠ '\t' ∧ ¬(c.toNat < 32 ∨ c.toNat = 127)

instance reprSafeDec (s : String) : Decidable (reprSafe s) :=
  List.decidableBAll _ s.data

theorem contains_eq_false_of_forall_ne (l : List Char) (c : Char)
    (h : ∀ x ∈ l, x ≠ c) : l.contains c = false := by
  induction l with
  | nil => rfl
  | cons a as ih =>
    simp only [List.contains_cons, Bool.or_eq_false_iff]
    constructor
    · simp only [beq_eq_false_iff_ne, ne_eq]
      intro hc
      exact h a (List.mem_cons_self a as) hc.symm
    · exact ih (fun x hx => h x (List.mem_cons_of_mem a hx))

theorem pyReprQuote_safe (s : String) (h : reprSafe s) : pyReprQuote s = '\x27' := by
  unfold pyReprQuote
  have : s.data.contains '\x27' = false :=
    contains_eq_false_of_forall_ne _ _ (fun x hx => (h x hx).2.1)
  rw [this]
  rfl

theorem pyReprEscape_safe (c : Char) (h : c ≠ '\\' ∧ c ≠ '\x27' ∧ c ≠ '"' ∧
    c ≠ '\n' ∧ c ≠ '\r' ∧ c ≠ '\t' ∧ ¬(c.toNat < 32 ∨ c.toNat = 127)) :
    pyReprEscape '\x27' c = [c] := by
  obtain ⟨h1, h2, _, h4, h5, h6, h7⟩ := h
  unfold pyReprEscape
  rw [if_neg h1, if_neg h2, if_neg h4, if_neg h5, if_neg h6, if_neg h7]

theorem flatten_map_escape_safe (l : List Char)
    (h : ∀ c ∈ l, c ≠ '\\' ∧ c ≠ '\x27' ∧ c ≠ '"' ∧ c ≠ '\n' ∧ c ≠ '\r' ∧
      c ≠ '\t' ∧ ¬(c.toNat < 32 ∨ c.toNat = 127)) :
    (l.map (pyReprEscape '\x27')).flatten = l := by
  induction l with
  | nil => rfl
  | cons c cs ih =>
    simp only [List.map_cons, List.flatten_cons,
      pyReprEscape_safe c (h c (List.mem_cons_self c cs))]
    rw [ih (fun x hx => h x (List.mem_cons_of_mem c hx))]
    rfl

theorem pyRepr_data_safe (s : String) (h : reprSafe s) :
    (pyRepr s).data = '\x27' :: s.data ++ ['\x27'] := by
  unfold pyRepr
  rw [pyReprQuote_safe s h]
  rw [flatten_map_escape_safe s.data h]

theorem strContains_of_repr (hay v : String) (hs : reprSafe v)
    (h : strContains hay (pyRepr v)) : strContains hay v := by
  refine strContains_trans hay (pyRepr v) v h ?_
  unfold strContains
  rw [pyRepr_data_safe v hs]
  exact ⟨['\x27'], ['\x27'], by simp⟩

theorem validate_tag_nil_false (tag : PyVal) :
    validate_tag tag [] false = .error .indexError := by
  cases tag <;> simp [validate_tag, fallback_first]

theorem validate_tag_nil_true (tag : PyVal) :
    validate_tag tag [] true = .ok ("Other")
    ∨ validate_tag tag [] true = .error .indexError := by
  cases tag with
  | vstr s =>
    by_cases h : s = "Other"
    · left
      subst h
      simp [validate_tag]
    · right
      simp [validate_tag, fallback_first, h]
  | vnull => right; rfl
  | vbool b => right; rfl
  | vnum raw => right; rfl
  | varr xs => right; rfl
  | vobj kvs => right; rfl

theorem pv_nil_false (content : String) :
    parse_and_validate content [] false = .error .indexError := by
  unfold parse_and_validate
  cases hj : json_loads content with
  | none => simp [try_body, hj]
  | some data =>
    cases data with
    | vobj kvs =>
      simp [try_body, hj, validate_tag_nil_false]
    | vnull => simp [try_body, hj]
    | vbool b => simp [try_body, hj]
    | vnum raw => simp [try_body, hj]
    | vstr s => simp [try_body, hj]
    | varr xs => simp [try_body, hj]

theorem pv_nil_true (content : String) :
    parse_and_validate content [] true = .ok ("Other") := by
  unfold parse_and_validate
  cases hj : json_loads content with
  | none => simp [try_body, hj]
  | some data =>
    cases data with
    | vobj kvs =>
      rcases validate_tag_nil_true (dictGet kvs ("tag")) with h | h <;>
        simp [try_body, hj, h]
    | vnull => simp [try_body, hj]
    | vbool b => simp [try_body, hj]
    | vnum raw => simp [try_body, hj]
    | vstr s => simp [try_body, hj]
    | varr xs => simp [try_body, hj]

theorem pv_cons_ok (content : String) (l0 : String) (ls : List String)
    (allow_other : Bool) :
    ∃ s, parse_and_validate content (l0 :: ls) allow_other = .ok s := by
  unfold parse_and_validate
  cases try_body content (l0 :: ls) allow_other with
  | ok s => exact ⟨s, rfl⟩
  | error e =>
    cases allow_other with
    | true => exact ⟨"Other", rfl⟩
    | false => exact ⟨l0, rfl⟩

/-- C1: the claim states that on a validation failure — the response is a
JSON object whose tag is neither a member of the label set nor a
permitted "Other" — classify_value returns "Other" when allow_other is
true.  It does not: for L = ["Red"], allow_other = true and response
body with tag "Purple", classify_value returns "Red", the first label,
not "Other". -/
theorem claim1_counterexample :
    classify_value ("v") (["Red"]) ("col") true none ("sk-key")
      ("\x7b\"tag\": \"Purple\"\x7d") = .ok ("Red")
    ∧ ("Red" : String) ≠ "Other" := by
  constructor
  · rfl
  · decide

/-- C1 (amended): for every non-empty label set, on a validation failure
classify_value returns the first element of the label set regardless of
the allow_other flag (the in-try fallback `mapping_labels[0]` ignores
allow_other). -/
theorem claim1_validation_fallback (value column_name api_key content : String)
    (extra_context : Option String) (l0 : String) (ls : List String)
    (allow_other : Bool) (kvs : List (String × PyVal))
    (hp : json_loads (py_strip content) = some (.vobj kvs))
    (htag : ∀ s, dictGet kvs ("tag") = PyVal.vstr s →
      s ∉ l0 :: ls ∧ ¬(allow_other = true ∧ s = "Other"))
    (hkey : api_key ≠ "") :
    classify_value value (l0 :: ls) column_name allow_other extra_context
      api_key content = .ok l0 := by
  unfold classify_value
  rw [if_neg hkey]
  unfold parse_and_validate
  have hv : validate_tag (dictGet kvs ("tag")) (l0 :: ls) allow_other = .ok l0 := by
    generalize hd : dictGet kvs ("tag") = tag at htag ⊢
    cases tag with
    | vstr s =>
      have hs := htag s rfl
      simp [validate_tag, fallback_first, hs.1, hs.2]
    | vnull => rfl
    | vbool b => rfl
    | vnum raw => rfl
    | varr xs => rfl
    | vobj kvs2 => rfl
  simp only [try_body, hp, hv]

/-- Witness for the amended C1 at a concrete input. -/
theorem claim1_validation_fallback_witness :
    classify_value ("x") (["Red", "Blue"]) ("col") true none ("k")
      ("\x7b\"tag\": \"Purple\"\x7d") = .ok ("Red") := by
  refine claim1_validation_fallback ("x") ("col") ("k")
    ("\x7b\"tag\": \"Purple\"\x7d") none ("Red") (["Blue"]) true
    ([(("tag" : String), PyVal.vstr ("Purple"))]) rfl ?_ (by decide)
  intro s h
  have hs : s = "Purple" := by
    have : PyVal.vstr ("Purple") = PyVal.vstr s := h
    injection this with h2
    exact h2.symm
  subst hs
  exact ⟨by decide, by decide⟩

/-- C2: the claim states that a response that is a JSON object lacking
the key "tag" takes the same fallback as malformed JSON — "Other" when
allow_other is true.  It does not: for L = ["Red"], allow_other = true
and response body an empty JSON object, classify_value returns "Red"
(the in-try first-label fallback), not "Other". -/
theorem claim2_counterexample :
    classify_value ("v") (["Red"]) ("col") true none ("sk-key") ("\x7b\x7d")
      = .ok ("Red")
    ∧ ("Red" : String) ≠ "Other" := by
  constructor
  · rfl
  · decide

/-- C2 (amended): for every non-empty label set, if the stripped response
is not valid JSON, classify_value returns "Other" when allow_other is
true, else the first label; but if the response is a JSON object lacking
the key "tag", classify_value returns the first label regardless of
allow_other. -/
theorem claim2_parse_failure_fallback (value column_name api_key content : String)
    (extra_context : Option String) (l0 : String) (ls : List String)
    (allow_other : Bool) (hkey : api_key ≠ "") :
    (json_loads (py_strip content) = none →
      classify_value value (l0 :: ls) column_name allow_other extra_context
        api_key content = .ok (if allow_other then "Other" else l0))
    ∧ (∀ kvs, json_loads (py_strip content) = some (.vobj kvs) →
        kvs.reverse.lookup ("tag") = none →
        classify_value value (l0 :: ls) column_name allow_other extra_context
          api_key content = .ok l0) := by
  constructor
  · intro hp
    unfold classify_value
    rw [if_neg hkey]
    unfold parse_and_validate
    simp only [try_body, hp]
    cases allow_other <;> rfl
  · intro kvs hp hl
    unfold classify_value
    rw [if_neg hkey]
    unfold parse_and_validate
    have hd : dictGet kvs ("tag") = .vnull := by
      unfold dictGet
      rw [hl]
    simp only [try_body, hp, hd, validate_tag, fallback_first]

/-- Witness for the amended C2 at concrete inputs. -/
theorem claim2_parse_failure_fallback_witness :
    classify_value ("v") (["Red"]) ("c") true none ("k") ("not json")
      = .ok ("Other")
    ∧ classify_value ("v") (["Red"]) ("c") true none ("k") ("\x7b\x7d")
      = .ok ("Red") := by
  constructor
  · exact (claim2_parse_failure_fallback ("v") ("c") ("k") ("not json") none
      ("Red") [] true (by decide)).1 rfl
  · exact (claim2_parse_failure_fallback ("v") ("c") ("k") ("\x7b\x7d") none
      ("Red") [] true (by decide)).2 [] rfl rfl

/-- C3: round-trip — when the response decodes to a JSON object whose
"tag" is a member of the label set, classify_value returns it verbatim;
and for the literal response with tag "Other" (not a member of L),
classify_value returns "Other" when allow_other is true and the first
label when allow_other is false. -/
theorem claim3_round_trip (value column_name api_key : String)
    (extra_context : Option String) (l0 : String) (ls : List String)
    (hkey : api_key ≠ "") :
    (∀ (allow_other : Bool) (content : String) (kvs : List (String × PyVal))
      (X : String),
      json_loads (py_strip content) = some (.vobj kvs) →
      dictGet kvs ("tag") = .vstr X → X ∈ l0 :: ls →
      classify_value value (l0 :: ls) column_name allow_other extra_context
        api_key content = .ok X)
    ∧ ("Other" ∉ l0 :: ls →
      classify_value value (l0 :: ls) column_name true extra_context api_key
        ("\x7b\"tag\": \"Other\"\x7d") = .ok ("Other")
      ∧ classify_value value (l0 :: ls) column_name false extra_context api_key
        ("\x7b\"tag\": \"Other\"\x7d") = .ok l0) := by
  constructor
  · intro allow_other content kvs X hp hd hmem
    unfold classify_value
    rw [if_neg hkey]
    unfold parse_and_validate
    have hv : validate_tag (dictGet kvs ("tag")) (l0 :: ls) allow_other
        = .ok X := by
      rw [hd]
      simp [validate_tag, hmem]
    simp only [try_body, hp, hv]
  · intro hother
    have hp : json_loads (py_strip ("\x7b\"tag\": \"Other\"\x7d"))
        = some (.vobj [(("tag" : String), PyVal.vstr ("Other"))]) := rfl
    have hd : dictGet [(("tag" : String), PyVal.vstr ("Other"))] ("tag")
        = PyVal.vstr ("Other") := rfl
    constructor
    · unfold classify_value
      rw [if_neg hkey]
      unfold parse_and_validate
      have hv : validate_tag (PyVal.vstr ("Other")) (l0 :: ls) true
          = .ok ("Other") := by
        simp [validate_tag]
      simp only [try_body, hp, hd, hv]
    · unfold classify_value
      rw [if_neg hkey]
      unfold parse_and_validate
      have hv : validate_tag (PyVal.vstr ("Other")) (l0 :: ls) false
          = .ok l0 := by
        simp [validate_tag, fallback_first, hother]
      simp only [try_body, hp, hd, hv]

/-- Witness for C3 at concrete inputs. -/
theorem claim3_round_trip_witness :
    classify_value ("v") (["Red", "Blue"]) ("c") true none ("k")
      ("\x7b\"tag\": \"Blue\"\x7d") = .ok ("Blue")
    ∧ classify_value ("v") (["Red", "Blue"]) ("c") true none ("k")
      ("\x7b\"tag\": \"Other\"\x7d") = .ok ("Other")
    ∧ classify_value ("v") (["Red", "Blue"]) ("c") false none ("k")
      ("\x7b\"tag\": \"Other\"\x7d") = .ok ("Red") := by
  refine ⟨?_, ?_, ?_⟩
  · exact (claim3_round_trip ("v") ("c") ("k") none ("Red") (["Blue"])
      (by decide)).1 true ("\x7b\"tag\": \"Blue\"\x7d")
      ([(("tag" : String), PyVal.vstr ("Blue"))]) ("Blue") rfl rfl (by decide)
  · exact ((claim3_round_trip ("v") ("c") ("k") none ("Red") (["Blue"])
      (by decide)).2 (by decide)).1
  · exact ((claim3_round_trip ("v") ("c") ("k") none ("Red") (["Blue"])
      (by decide)).2 (by decide)).2

/-- C10: the claim states that with an empty label set, a response whose
tag fails validation makes classify_value raise for either allow_other
value.  It does not when allow_other is true: the IndexError raised by
`mapping_labels[0]` inside the try block is itself caught by the
`except` handler, which returns "Other"; no exception escapes. -/
theorem claim10_counterexample :
    classify_value ("v") [] ("c") true none ("k")
      ("\x7b\"tag\": \"Purple\"\x7d") = .ok ("Other")
    ∧ ∀ e : PyExc, classify_value ("v") [] ("c") true none ("k")
      ("\x7b\"tag\": \"Purple\"\x7d") ≠ .error e := by
  have h1 : classify_value ("v") [] ("c") true none ("k")
      ("\x7b\"tag\": \"Purple\"\x7d") = .ok ("Other") := rfl
  refine ⟨h1, fun e he => ?_⟩
  rw [h1] at he
  cases he

/-- C10 (amended): with an empty label set, classify_value raises
IndexError for every response exactly when allow_other is false; when
allow_other is true it always returns "Other" (the in-try IndexError is
swallowed by the handler). -/
theorem claim10_empty_labels (value column_name api_key content : String)
    (extra_context : Option String) (hkey : api_key ≠ "") :
    classify_value value [] column_name false extra_context api_key content
      = .error .indexError
    ∧ classify_value value [] column_name true extra_context api_key content
      = .ok ("Other") := by
  constructor
  · unfold classify_value
    rw [if_neg hkey]
    exact pv_nil_false _
  · unfold classify_value
    rw [if_neg hkey]
    exact pv_nil_true _

/-- Witness for the amended C10 at a concrete input. -/
theorem claim10_empty_labels_witness :
    classify_value ("v") [] ("c") false none ("k") ("not json")
      = .error .indexError
    ∧ classify_value ("v") [] ("c") true none ("k") ("not json")
      = .ok ("Other") :=
  claim10_empty_labels ("v") ("c") ("k") ("not json") none (by decide)

/-- C4: for a non-empty label set, the parse-and-validate step never
raises: classify_value returns an error exactly when the API key is
empty, and that error is the configuration RuntimeError; moreover in the
empty-key case no prompt-composition or request step is ever reached. -/
theorem claim4_no_raise_but_config (value column_name api_key content : String)
    (extra_context : Option String) (l0 : String) (ls : List String)
    (allow_other : Bool) :
    (∀ e, classify_value value (l0 :: ls) column_name allow_other extra_context
        api_key content = .error e ↔ (api_key = "" ∧ e = .runtimeError))
    ∧ (api_key = "" → Step.compose_system ∉ classify_steps api_key
        ∧ Step.compose_user ∉ classify_steps api_key
        ∧ Step.invoke ∉ classify_steps api_key) := by
  constructor
  · intro e
    by_cases hk : api_key = ""
    · constructor
      · intro h
        refine ⟨hk, ?_⟩
        unfold classify_value at h
        rw [if_pos hk] at h
        injection h with h2
        exact h2.symm
      · intro h
        unfold classify_value
        rw [if_pos hk, h.2]
    · constructor
      · intro h
        obtain ⟨s, hs⟩ := pv_cons_ok (py_strip content) l0 ls allow_other
        unfold classify_value at h
        rw [if_neg hk, hs] at h
        cases h
      · intro h
        exact absurd h.1 hk
  · intro hk
    unfold classify_steps
    rw [if_pos hk]
    refine ⟨?_, ?_, ?_⟩ <;> decide

/-- Witness for C4 at concrete inputs: an empty key yields exactly the
configuration error. -/
theorem claim4_no_raise_but_config_witness :
    classify_value ("v") (["Red"]) ("c") true none ("") ("not json")
      = .error .runtimeError :=
  ((claim4_no_raise_but_config ("v") ("c") ("") ("not json") none ("Red") []
    true).1 .runtimeError).mpr ⟨rfl, rfl⟩

set_option maxRecDepth 20000 in
/-- C5: the claim states the value appears in the user prompt exactly as
given.  It does not: the f-string interpolates the value with the `!r`
repr conversion, so a value containing a newline appears escaped as
backslash-n and the raw value is not a substring of the prompt. -/
theorem claim5_counterexample :
    ¬ strContains (build_user_prompt ("a\nb") none ("colours") (["Red"]) true)
      ("a\nb") := by
  rw [strContains_iff_sub]
  have h : list_contains_sub
      (build_user_prompt ("a\nb") none ("colours") (["Red"]) true).data
      ("a\nb").data = false := rfl
  rw [h]
  decide

/-- C5 (amended): the user prompt always contains the full Python repr of
the value (no truncation), and whenever the value has no characters that
repr escapes, the value itself appears verbatim as a substring. -/
theorem claim5_value_in_prompt (cell_value : String)
    (extra_context : Option String) (column_name : String)
    (mapping_labels : List String) (allow_other : Bool) :
    strContains
      (build_user_prompt cell_value extra_context column_name mapping_labels
        allow_other) (pyRepr cell_value)
    ∧ (reprSafe cell_value →
      strContains
        (build_user_prompt cell_value extra_context column_name mapping_labels
          allow_other) cell_value) := by
  have h1 : strContains
      (build_user_prompt cell_value extra_context column_name mapping_labels
        allow_other) (pyRepr cell_value) := by
    unfold build_user_prompt user_prompt_post
    exact strContains_append_right _ _ _
      (strContains_append_left _ _ _
        (strContains_append_left _ _ _
          (strContains_append_left _ _ _
            (strContains_append_left _ _ _
              (strContains_append_left _ _ _
                (strContains_append_left _ _ _
                  (strContains_append_right _ _ _ (strContains_self _))))))))
  exact ⟨h1, fun hs => strContains_of_repr _ _ hs h1⟩

/-- Witness for the amended C5 at a concrete input. -/
theorem claim5_value_in_prompt_witness :
    strContains (build_user_prompt ("crimson") none ("colours") (["Red"]) true)
      ("crimson") :=
  (claim5_value_in_prompt ("crimson") none ("colours") (["Red"]) true).2
    (by decide)

set_option maxRecDepth 20000 in
/-- C6: the claim states every label of the set appears verbatim in the
system prompt.  It does not: the label list is interpolated with Python
str/repr formatting, so a label containing a backslash appears escaped
and is not a substring of the prompt, even for a non-empty deduplicated
label set containing it. -/
theorem claim6_counterexample :
    (["a\\b"] : List String) ≠ []
    ∧ (["a\\b"] : List String).Nodup
    ∧ ("a\\b" : String) ∈ (["a\\b"] : List String)
    ∧ ¬ strContains (build_system_prompt (["a\\b"]) true) ("a\\b") := by
  refine ⟨by decide, by decide, by decide, ?_⟩
  rw [strContains_iff_sub]
  have h : list_contains_sub (build_system_prompt (["a\\b"]) true).data
      ("a\\b").data = false := rfl
  rw [h]
  decide

/-- C6 (amended): for every non-empty deduplicated label set, the system
prompt contains the Python repr of every label (and hence every label
verbatim whenever it has no characters repr escapes), and it states the
required JSON shape rule. -/
theorem claim6_labels_in_prompt (mapping_labels : List String)
    (allow_other : Bool) (hne : mapping_labels ≠ [])
    (hnd : mapping_labels.Nodup) :
    (∀ l ∈ mapping_labels,
      strContains (build_system_prompt mapping_labels allow_other) (pyRepr l))
    ∧ strContains (build_system_prompt mapping_labels allow_other)
        system_prompt_shape_rule
    ∧ (∀ l ∈ mapping_labels, reprSafe l →
      strContains (build_system_prompt mapping_labels allow_other) l) := by
  have hlab : ∀ l ∈ mapping_labels,
      strContains (build_system_prompt mapping_labels allow_other) (pyRepr l) := by
    intro l hl
    unfold build_system_prompt
    cases allow_other <;>
      exact strContains_append_left _ _ _
        (strContains_append_left _ _ _
          (strContains_append_right _ _ _ (pyStrList_contains _ _ hl)))
  refine ⟨hlab, ?_, fun l hl hs => strContains_of_repr _ _ hs (hlab l hl)⟩
  unfold build_system_prompt system_prompt_mid
  cases allow_other <;>
    exact strContains_append_left _ _ _
      (strContains_append_right _ _ _
        (strContains_append_left _ _ _
          (strContains_append_right _ _ _ (strContains_self _))))

/-- Witness for the amended C6 at a concrete input. -/
theorem claim6_labels_in_prompt_witness :
    strContains (build_system_prompt (["Red", "Blue"]) true) ("Red") :=
  (claim6_labels_in_prompt (["Red", "Blue"]) true (by decide) (by decide)).2.2
    ("Red") (by decide) (by decide)

/-- C9: the user prompt splits as first line, context block, remainder;
the context block is empty exactly when the context argument is None or
the empty string, and a non-empty context appears in the prompt under the
"Additional context from the user:" header. -/
theorem claim9_context_block (cell_value : String)
    (extra_context : Option String) (column_name : String)
    (mapping_labels : List String) (allow_other : Bool) :
    build_user_prompt cell_value extra_context column_name mapping_labels
        allow_other
      = user_prompt_pre column_name ++ context_str extra_context
        ++ user_prompt_post cell_value mapping_labels allow_other
    ∧ (context_str extra_context = ""
        ↔ extra_context = none ∨ extra_context = some "")
    ∧ (∀ s, extra_context = some s → s ≠ "" →
      strContains
        (build_user_prompt cell_value extra_context column_name mapping_labels
          allow_other)
        ("Additional context from the user:\n" ++ s)) := by
  refine ⟨rfl, ?_, ?_⟩
  · cases extra_context with
    | none => simp [context_str]
    | some s =>
      by_cases h : s = ""
      · subst h
        simp [context_str]
      · simp only [context_str, if_neg (fun h2 => h (by simpa using h2))]
        rw [if_pos h]
        constructor
        · intro h2
          have h3 := congrArg String.length h2
          rw [String.length_append, String.length_append] at h3
          have h4 : String.length ("Additional context from the user:\n") = 34 := rfl
          have h5 : String.length ("\n\n") = 2 := rfl
          rw [h4, h5] at h3
          simp at h3
        · intro h2
          rcases h2 with h2 | h2
          · cases h2
          · injection h2 with h3
            exact absurd h3 h
  · intro s hs hne
    subst hs
    unfold build_user_prompt
    have hctx : context_str (some s)
        = "Additional context from the user:\n" ++ s ++ "\n\n" := by
      simp only [context_str]
      rw [if_pos hne]
    rw [hctx]
    exact strContains_append_left _ _ _
      (strContains_append_right _ _ _
        (strContains_append_left _ _ _ (strContains_self _)))

/-- Witness for C9 at a concrete input. -/
theorem claim9_context_block_witness :
    strContains (build_user_prompt ("v") (some ("domain notes")) ("c")
        (["Red"]) true)
      ("Additional context from the user:\ndomain notes") :=
  (claim9_context_block ("v") (some ("domain notes")) ("c") (["Red"])
    true).2.2 ("domain notes") rfl (by decide)

theorem unique_first_fuel_sublist :
    ∀ (n : Nat) (l : List String), List.Sublist (unique_first_fuel n l) l := by
  intro n
  induction n with
  | zero =>
    intro l
    exact List.nil_sublist l
  | succ n ih =>
    intro l
    cases l with
    | nil => exact List.nil_sublist _
    | cons x xs =>
      exact List.Sublist.cons₂ x ((ih _).trans (List.filter_sublist xs))

theorem unique_first_sublist (l : List String) :
    List.Sublist (unique_first l) l :=
  unique_first_fuel_sublist l.length l

theorem unique_first_fuel_nodup :
    ∀ (n : Nat) (l : List String), (unique_first_fuel n l).Nodup := by
  intro n
  induction n with
  | zero =>
    intro l
    exact List.nodup_nil
  | succ n ih =>
    intro l
    cases l with
    | nil => exact List.nodup_nil
    | cons x xs =>
      refine List.nodup_cons.mpr ⟨?_, ih _⟩
      intro hx
      have hmem : x ∈ xs.filter (fun y => y ≠ x) :=
        (unique_first_fuel_sublist _ _).subset hx
      have := (List.mem_filter.mp hmem).2
      simp at this

theorem unique_first_nodup (l : List String) : (unique_first l).Nodup :=
  unique_first_fuel_nodup l.length l

/-- C7: the claim states that both label sources yield a deduplicated
list of unique non-empty trimmed labels.  They do not: the pasted-text
path keeps duplicates (pasting "Red" on two lines yields the label list
["Red", "Red"], which is not duplicate-free), and the mapping-file path
keeps a whitespace-only cell as an empty-string label. -/
theorem claim7_counterexample :
    mapping_labels_from_text ("Red\nRed") = ["Red", "Red"]
    ∧ ¬ (mapping_labels_from_text ("Red\nRed")).Nodup
    ∧ mapping_labels_from_file [some (" ")] = [""] := by
  refine ⟨rfl, ?_, rfl⟩
  intro h
  rw [show mapping_labels_from_text ("Red\nRed") = ["Red", "Red"] from rfl] at h
  simp at h

/-- C7 (amended): the mapping-file path produces a deduplicated list —
unique labels, order preserved from first occurrence (a sublist of the
stripped cell sequence), each label the stripped form of a non-NaN cell,
but possibly containing the empty string; the pasted-text path produces
non-empty stripped lines with order preserved (a sublist of the stripped
line sequence), but duplicates are retained. -/
theorem claim7_label_pipeline (column : List (Option String)) (text : String) :
    ((mapping_labels_from_file column).Nodup
      ∧ List.Sublist (mapping_labels_from_file column)
          ((column.filterMap id).map py_strip)
      ∧ (∀ l ∈ mapping_labels_from_file column,
          ∃ c ∈ column.filterMap id, l = py_strip c))
    ∧ ((∀ l ∈ mapping_labels_from_text text,
          l ≠ "" ∧ ∃ line ∈ splitlinesPy text, l = py_strip line)
      ∧ List.Sublist (mapping_labels_from_text text)
          ((splitlinesPy text).map py_strip)) := by
  constructor
  · refine ⟨unique_first_nodup _, unique_first_sublist _, ?_⟩
    intro l hl
    have hm : l ∈ (column.filterMap id).map py_strip :=
      (unique_first_sublist _).subset hl
    obtain ⟨c, hc, hcl⟩ := List.mem_map.mp hm
    exact ⟨c, hc, hcl.symm⟩
  · constructor
    · intro l hl
      unfold mapping_labels_from_text at hl
      by_cases hg : py_strip text = ""
      · rw [if_pos hg] at hl
        cases hl
      · rw [if_neg hg] at hl
        have h1 := List.mem_filter.mp hl
        have h2 : l ≠ "" := by
          have := h1.2
          simpa using this
        obtain ⟨line, hline, hl2⟩ := List.mem_map.mp h1.1
        exact ⟨h2, line, hline, hl2.symm⟩
    · unfold mapping_labels_from_text
      by_cases hg : py_strip text = ""
      · rw [if_pos hg]
        exact List.nil_sublist _
      · rw [if_neg hg]
        exact List.filter_sublist _

/-- Witness for the amended C7 at concrete inputs. -/
theorem claim7_label_pipeline_witness :
    ("x" : String) ≠ ""
    ∧ ∃ line ∈ splitlinesPy ("x\ny"), ("x" : String) = py_strip line :=
  (claim7_label_pipeline [] ("x\ny")).2.1 ("x") (by decide)

theorem run_loop_abort (classify : Nat → Except PyExc String) (i : Nat)
    (e : PyExc) (herr : classify i = .error e)
    (hok : ∀ j, j < i → ∃ t, classify j = .ok t) :
    ∀ (n start : Nat), start ≤ i → i < start + n →
      (∀ j ∈ (run_loop classify start n).submitted, j ≤ i)
      ∧ (run_loop classify start n).had_error = true := by
  intro n
  induction n with
  | zero =>
    intro start h1 h2
    omega
  | succ n ih =>
    intro start h1 h2
    by_cases hs : start = i
    · subst hs
      rw [run_loop, herr]
      refine ⟨?_, rfl⟩
      intro j hj
      simp only [List.mem_singleton] at hj
      omega
    · have hlt : start < i := lt_of_le_of_ne h1 hs
      obtain ⟨t, ht⟩ := hok start hlt
      rw [run_loop, ht]
      have h3 := ih (start + 1) (by omega) (by omega)
      refine ⟨?_, h3.2⟩
      intro j hj
      rcases List.mem_cons.mp hj with h | h
      · omega
      · exact h3.1 j h

/-- C8: if the classification call for a row raises while all earlier
rows succeed, the run halts — no later row is ever submitted to a
classification call, and no output column is attached to the dataset. -/
theorem claim8_abort (classify : Nat → Except PyExc String) (n i : Nat)
    (e : PyExc) (hi : i < n) (herr : classify i = .error e)
    (hok : ∀ j, j < i → ∃ t, classify j = .ok t) :
    (∀ j ∈ (run_tagging classify n).submitted, j ≤ i)
    ∧ (run_tagging classify n).had_error = true
    ∧ attached_column classify n = none := by
  have h := run_loop_abort classify i e herr hok n 0 (Nat.zero_le i)
    (by omega)
  refine ⟨h.1, h.2, ?_⟩
  unfold attached_column
  have h2 : (run_tagging classify n).had_error = true := h.2
  rw [h2]
  rfl

/-- Witness for C8 at a concrete input: a run of five rows whose second
row raises submits only rows one and two and attaches no column. -/
theorem claim8_abort_witness :
    (∀ j ∈ (run_tagging
        (fun j => if j = 1 then .error .runtimeError else .ok ("A"))
        5).submitted, j ≤ 1)
    ∧ attached_column
        (fun j => if j = 1 then .error .runtimeError else .ok ("A")) 5
      = none := by
  have h := claim8_abort
    (fun j => if j = 1 then .error .runtimeError else .ok ("A")) 5 1
    .runtimeError (by omega) rfl ?_
  · exact ⟨h.1, h.2.2⟩
  · intro j hj
    have hj0 : j = 0 := by omega
    subst hj0
    exact ⟨"A", rfl⟩

end FuzzyMatching
